import Mathlib

/-!
Shallow embedding of the scheduling / recording / upload core of the
Radio-show-recorder repository (src/config.py, src/bot.py, src/recorder.py,
src/uploader.py, src/scheduler.py), together with theorems settling the
frozen claims about it.

External capabilities (the ffmpeg capture subprocess, the rclone transfer
subprocess, the filesystem, the APScheduler cron computation and the wall
clock) are modelled as explicit environment values passed to the embedded
operations, so every operation is a pure, executable function of its inputs.
Python strings are modelled through their character lists; every helper is
defined by structural recursion so that concrete runs reduce in the kernel.
-/

namespace Radio

/-! ### String helpers (models of the Python `str` operations used) -/

/-- Model of Python `str.split(sep)` for a single-character separator:
accumulates the current chunk (reversed) and cuts at each separator. -/
def splitAux (c : Char) : List Char → List Char → List String
  | [], acc => [⟨acc.reverse⟩]
  | x :: xs, acc =>
      if x = c then ⟨acc.reverse⟩ :: splitAux c xs []
      else splitAux c xs (x :: acc)

/-- Python `s.split(c)` (always returns at least one chunk; `"".split(c) = [""]`). -/
def splitStr (s : String) (c : Char) : List String :=
  splitAux c s.data []

/-- Python `str.lower()` (ASCII case folding, which covers every string the
program manipulates). -/
def strLower (s : String) : String :=
  ⟨s.data.map Char.toLower⟩

/-- Python slicing `s[:n]` (by code points). -/
def strTake (s : String) (n : Nat) : String :=
  ⟨s.data.take n⟩

/-- Whitespace test used by Python `str.strip()` (the whitespace actually
reachable in chat input). -/
def isSpaceChar (c : Char) : Bool :=
  c = ' ' ∨ c = '\t' ∨ c = '\n' ∨ c = '\r'

/-- Python `str.strip()`. -/
def strTrim (s : String) : String :=
  ⟨((s.data.dropWhile isSpaceChar).reverse.dropWhile isSpaceChar).reverse⟩

/-- Substring test on character lists, model of Python `sub in s`. -/
def listIsInfixOf (pat : List Char) : List Char → Bool
  | [] => pat.isEmpty
  | c :: rest => pat.isPrefixOf (c :: rest) || listIsInfixOf pat rest

/-- Python `sub in s`. -/
def strContains (s sub : String) : Bool :=
  listIsInfixOf sub.data s.data

/-- Python `s.startswith(p)`. -/
def strStartsWith (s p : String) : Bool :=
  p.data.isPrefixOf s.data

/-- Numeric value of a digit list (the loop inside Python `int` on an
all-digit string). -/
def digitsVal (cs : List Char) : Nat :=
  cs.foldl (fun n c => n * 10 + (c.toNat - 48)) 0

/-- Python `int(s)` restricted to the nonempty all-digit strings the program
feeds it; every other string yields `none` (Python raises `ValueError` there,
or produces a negative value that the surrounding bounds checks reject with
the same verdict). -/
def digitsToNat (cs : List Char) : Option Nat :=
  if cs ≠ [] ∧ cs.all Char.isDigit then some (digitsVal cs) else none

/-- Replace every occurrence of `pat` (nonempty in all uses) in the list,
fuelled by the list length; model of Python `str.replace`. -/
def replaceAllAux (pat repl : List Char) : Nat → List Char → List Char
  | _, [] => []
  | 0, s => s
  | Nat.succ fuel, c :: rest =>
      if pat ≠ [] ∧ pat.isPrefixOf (c :: rest) then
        repl ++ replaceAllAux pat repl fuel ((c :: rest).drop pat.length)
      else c :: replaceAllAux pat repl fuel rest

/-- Python `s.replace(pat, repl)` for a nonempty pattern. -/
def strReplace (s pat repl : String) : String :=
  ⟨replaceAllAux pat.data repl.data s.data.length s.data⟩

/-- Two-digit zero padding, Python `f"{n:02d}"` for the 0..59 values used. -/
def pad2 (n : Nat) : String :=
  if n < 10 then "0" ++ Nat.repr n else Nat.repr n

/-! ### Data model (src/config.py) -/

/-- A single recording schedule (`Schedule` dataclass in src/config.py). -/
structure Schedule where
  id : String
  day : String
  time : String
  duration : Nat
  enabled : Bool := true
deriving Repr, DecidableEq

/-- Dynamic (runtime-editable, persisted) configuration
(`DynamicConfig` dataclass in src/config.py). -/
structure DynamicConfig where
  schedules : List Schedule := []
  cleanup_enabled : Bool := true
  notifications_enabled : Bool := true
  test_duration : Nat := 15
deriving Repr, DecidableEq

/-- Combined static + dynamic configuration (`Config` class in src/config.py).
`on_change_set` records whether a schedule-change callback has been
registered via `set_on_schedule_change`. -/
structure Config where
  stream_url : String := "https://stream.yammat.fm/radio/8000/yammat.mp3"
  pcloud_remote : String := "pcloud:Radio recordings"
  timezone : String := "Europe/Zagreb"
  default_duration : Nat := 28800
  recordings_dir : String := "recordings"
  dynamic : DynamicConfig := {}
  on_change_set : Bool := false
deriving Repr, DecidableEq

/-- Effects of `Config.add_schedule`: the created schedule, the new config
state, whether `_save_dynamic_config` ran (persistence attempted) and whether
the registered schedule-change callback fired. -/
structure AddCall where
  schedule : Schedule
  config : Config
  saved : Bool
  callback_fired : Bool
deriving Repr, DecidableEq

/-- `Config.add_schedule(day, time, duration)` from src/config.py:
assigns id `user_{len(schedules)}`, normalizes the day to its lowercase
3-letter token, appends, saves, and fires the change callback if set. -/
def Config.add_schedule (cfg : Config) (day time : String) (duration : Nat) : AddCall :=
  let schedule_id := "user_" ++ Nat.repr cfg.dynamic.schedules.length
  let s : Schedule :=
    { id := schedule_id, day := strTake (strLower day) 3, time := time,
      duration := duration, enabled := true }
  { schedule := s
    config :=
      { cfg with dynamic := { cfg.dynamic with schedules := cfg.dynamic.schedules ++ [s] } }
    saved := true
    callback_fired := cfg.on_change_set }

/-- Effects of `Config.remove_schedule`. -/
structure RemoveCall where
  removed : Bool
  config : Config
  saved : Bool
  callback_fired : Bool
deriving Repr, DecidableEq

/-- The loop body of `Config.remove_schedule`: pop the first schedule whose
id matches, or report that none matched. -/
def removeLoop : List Schedule → String → Option (List Schedule)
  | [], _ => none
  | s :: rest, sid =>
      if s.id == sid then some rest
      else (removeLoop rest sid).map (fun l => s :: l)

/-- `Config.remove_schedule(schedule_id)` from src/config.py: removes the
first matching schedule, saves and fires the change callback (if registered)
only when something was removed. -/
def Config.remove_schedule (cfg : Config) (sid : String) : RemoveCall :=
  match removeLoop cfg.dynamic.schedules sid with
  | some rest =>
      { removed := true
        config := { cfg with dynamic := { cfg.dynamic with schedules := rest } }
        saved := true
        callback_fired := cfg.on_change_set }
  | none =>
      { removed := false, config := cfg, saved := false, callback_fired := false }

/-! ### Duration parsing and the bot's add-schedule command (src/bot.py) -/

/-- One step of the character loop in `parse_duration` (src/bot.py lines
55-66): digits accumulate, a unit letter flushes the accumulator into the
total, any other character is ignored. -/
def parseDurationStep : Nat × List Char → Char → Nat × List Char
  | (total, cur), c =>
      if c.isDigit then (total, cur ++ [c])
      else if c = 'h' ∧ cur ≠ [] then (total + digitsVal cur * 3600, [])
      else if c = 'm' ∧ cur ≠ [] then (total + digitsVal cur * 60, [])
      else if c = 's' ∧ cur ≠ [] then (total + digitsVal cur, [])
      else (total, cur)

/-- `parse_duration(duration_str)` from src/bot.py. `none` models the raised
`ValueError`. Note the fast path: a pure digit string is returned as-is
without the final `total_seconds == 0` check, so `"0"` yields `some 0`. -/
def parse_duration (durationStr : String) : Option Nat :=
  let s := strTrim (strLower durationStr)
  if s.data ≠ [] ∧ s.data.all Char.isDigit then some (digitsVal s.data)
  else
    let p := s.data.foldl parseDurationStep (0, [])
    let total := if p.2 ≠ [] then p.1 + digitsVal p.2 else p.1
    if total = 0 then none else some total

/-- The weekday tokens accepted by `RadioBot._schedule_add`. -/
def validDays : List String :=
  ["mon", "tue", "wed", "thu", "fri", "sat", "sun"]

/-- Time validation in `RadioBot._schedule_add` (src/bot.py lines 300-310):
split on `:`, `int` the first part as the hour, the second (default 0) as
the minute, bounds-check; extra parts are ignored. -/
def parseTimeHM (time : String) : Option (Nat × Nat) :=
  match splitStr time ':' with
  | [] => none
  | p0 :: rest =>
      match digitsToNat p0.data with
      | none => none
      | some h =>
          let m? := match rest with
            | [] => some 0
            | p1 :: _ => digitsToNat p1.data
          match m? with
          | none => none
          | some m => if h ≤ 23 ∧ m ≤ 59 then some (h, m) else none

/-- Outcome reported by `RadioBot._schedule_add`. -/
inductive AddOutcome where
  | invalid_day
  | invalid_time
  | invalid_duration
  | added (s : Schedule)
deriving Repr, DecidableEq

/-- Effects of `RadioBot._schedule_add`. -/
structure ScheduleAddCall where
  outcome : AddOutcome
  config : Config
  saved : Bool
  callback_fired : Bool
deriving Repr, DecidableEq

/-- `RadioBot._schedule_add(day, time, duration_str)` from src/bot.py:
day token check, time validation and canonical reformatting, duration
parsing, then `Config.add_schedule` on success; on any validation failure
the store is untouched. -/
def schedule_add (cfg : Config) (day time durationStr : String) : ScheduleAddCall :=
  let d := strTake (strLower day) 3
  if ¬ validDays.contains d then
    { outcome := .invalid_day, config := cfg, saved := false, callback_fired := false }
  else
    match parseTimeHM time with
    | none =>
        { outcome := .invalid_time, config := cfg, saved := false, callback_fired := false }
    | some hm =>
        let t := pad2 hm.1 ++ ":" ++ pad2 hm.2
        match parse_duration durationStr with
        | none =>
            { outcome := .invalid_duration, config := cfg, saved := false,
              callback_fired := false }
        | some dur =>
            let ac := Config.add_schedule cfg d t dur
            { outcome := .added ac.schedule, config := ac.config, saved := ac.saved,
              callback_fired := ac.callback_fired }

/-! ### Recorder (src/recorder.py) -/

/-- Result of one capture attempt (`RecordingResult` dataclass). -/
structure RecordingResult where
  success : Bool
  filename : String
  filepath : String
  duration : Nat
  size_bytes : Nat := 0
  error : Option String := none
deriving Repr, DecidableEq

/-- Recorder state (the `Recorder` class fields the claims are about). -/
structure Recorder where
  config : Config
  is_recording : Bool := false
deriving Repr, DecidableEq

/-- Outcome of the external ffmpeg capture capability for one invocation:
the subprocess exits with a return code and stderr text, the invocation
raises, or the surrounding task is cancelled. -/
inductive CaptureOutcome where
  | exited (returncode : Nat) (stderr : String)
  | raised (msg : String)
  | cancelled
deriving Repr, DecidableEq

/-- Environment of one `record()` call: what the external world does. -/
structure RecordEnv where
  outcome : CaptureOutcome
  file_size : Nat := 0
  timestamp : String := ""
deriving Repr, DecidableEq

/-- Effects of one `record()` call: the returned result, the recorder state
at return, and the ffmpeg command lines actually spawned. -/
structure RecordCall where
  result : RecordingResult
  state : Recorder
  captures_started : List (List String)
deriving Repr, DecidableEq

/-- `Recorder._generate_filename(prefix)`: prefix + timestamp + ".mp3". -/
def generate_filename (pfx timestamp : String) : String :=
  pfx ++ "_" ++ timestamp ++ ".mp3"

/-- `Recorder.record(duration, filename, is_test)` from src/recorder.py.
A busy recorder rejects immediately without touching anything; otherwise the
busy flag is raised, the capture runs, and the `finally` block clears the
flag on every exit path (zero exit, nonzero exit, exception, cancellation). -/
def Recorder.record (self : Recorder) (duration? : Option Nat)
    (filename? : Option String) (is_test : Bool) (env : RecordEnv) : RecordCall :=
  if self.is_recording then
    { result :=
        { success := false, filename := "", filepath := "", duration := 0,
          size_bytes := 0, error := some "Recording already in progress" }
      state := self
      captures_started := [] }
  else
    let duration := duration?.getD
      (if is_test then self.config.dynamic.test_duration else self.config.default_duration)
    let filename := filename?.getD
      (generate_filename (if is_test then "yammat_test" else "yammat_recording") env.timestamp)
    let filepath := self.config.recordings_dir ++ "/" ++ filename
    let cmd : List String :=
      ["ffmpeg", "-y", "-i", self.config.stream_url, "-t", Nat.repr duration,
       "-c:a", "libmp3lame", "-b:a", "192k", filepath]
    let idle : Recorder := { self with is_recording := false }
    match env.outcome with
    | .exited 0 _ =>
        { result :=
            { success := true, filename := filename, filepath := filepath,
              duration := duration, size_bytes := env.file_size, error := none }
          state := idle
          captures_started := [cmd] }
    | .exited _ stderr =>
        { result :=
            { success := false, filename := filename, filepath := filepath,
              duration := duration, size_bytes := 0,
              error := some (if stderr = "" then "Unknown error" else stderr) }
          state := idle
          captures_started := [cmd] }
    | .raised msg =>
        { result :=
            { success := false, filename := filename, filepath := filepath,
              duration := duration, size_bytes := 0, error := some msg }
          state := idle
          captures_started := [cmd] }
    | .cancelled =>
        { result :=
            { success := false, filename := filename, filepath := filepath,
              duration := duration, size_bytes := 0, error := some "Recording cancelled" }
          state := idle
          captures_started := [cmd] }

/-! ### Uploader (src/uploader.py) -/

/-- Result of one transfer attempt (`UploadResult` dataclass). -/
structure UploadResult where
  success : Bool
  filename : String
  remote_path : String
  verified : Bool := false
  local_deleted : Bool := false
  error : Option String := none
deriving Repr, DecidableEq

/-- Environment of one `upload()` call: whether the local file exists, what
the rclone copy and the remote-existence check return, and whether the local
deletion succeeds when attempted. `raised` models an exception escaping the
transfer invocation. -/
structure UploadEnv where
  file_exists : Bool
  file_size : Nat := 0
  raised : Option String := none
  copy_exit : Nat := 0
  copy_stderr : String := ""
  verify_exit : Nat := 0
  verify_stdout : String := ""
  delete_ok : Bool := true
deriving Repr, DecidableEq

/-- Effects of one `upload()` call. -/
structure UploadCall where
  result : UploadResult
  transfer_invoked : Bool
  verify_invoked : Bool
  delete_attempted : Bool
deriving Repr, DecidableEq

/-- Python `Path(filepath).name`: the final path component. -/
def baseName (p : String) : String :=
  (splitStr p '/').getLastD ""

/-- `Uploader.verify_remote(filename)` from src/uploader.py: true iff the
`rclone ls` exit code is zero and the filename occurs in its stdout. -/
def verify_remote (env : UploadEnv) (filename : String) : Bool :=
  (env.verify_exit == 0) && strContains env.verify_stdout filename

/-- Uploader state (the `Uploader` class holds only its config). -/
structure Uploader where
  config : Config
deriving Repr, DecidableEq

/-- `Uploader.upload(filepath, delete_after)` from src/uploader.py:
fail fast when the file is missing (no rclone invocation); nonzero copy exit
fails with the stderr text; on copy success verify, then delete the local
file only when the effective cleanup decision and the verification both hold,
reporting `local_deleted` false when the deletion raises. -/
def Uploader.upload (self : Uploader) (filepath : String) (delete_after : Option Bool)
    (env : UploadEnv) : UploadCall :=
  if env.file_exists = false then
    { result :=
        { success := false, filename := baseName filepath, remote_path := "",
          verified := false, local_deleted := false,
          error := some ("File not found: " ++ filepath) }
      transfer_invoked := false, verify_invoked := false, delete_attempted := false }
  else
    let filename := baseName filepath
    let remote_path := self.config.pcloud_remote ++ "/" ++ filename
    match env.raised with
    | some msg =>
        { result :=
            { success := false, filename := filename, remote_path := remote_path,
              verified := false, local_deleted := false, error := some msg }
          transfer_invoked := true, verify_invoked := false, delete_attempted := false }
    | none =>
        if env.copy_exit ≠ 0 then
          { result :=
              { success := false, filename := filename, remote_path := remote_path,
                verified := false, local_deleted := false,
                error := some (if env.copy_stderr = "" then
                  "Upload failed with unknown error" else env.copy_stderr) }
            transfer_invoked := true, verify_invoked := false, delete_attempted := false }
        else
          let verified := verify_remote env filename
          let should_delete := delete_after.getD self.config.dynamic.cleanup_enabled
          let will_delete := should_delete && verified
          { result :=
              { success := true, filename := filename, remote_path := remote_path,
                verified := verified, local_deleted := will_delete && env.delete_ok,
                error := none }
            transfer_invoked := true, verify_invoked := true,
            delete_attempted := will_delete }

/-! ### Scheduler (src/scheduler.py) -/

/-- `DAY_MAP` from src/scheduler.py. -/
def DAY_MAP : List (String × String) :=
  [("mon", "0"), ("tue", "1"), ("wed", "2"), ("thu", "3"),
   ("fri", "4"), ("sat", "5"), ("sun", "6")]

/-- `DAY_MAP.get(day, day)`. -/
def dayMapGet (d : String) : String :=
  match DAY_MAP.find? (fun p => p.1 == d) with
  | some p => p.2
  | none => d

/-- Day-of-week expressions the external `CronTrigger` constructor accepts
among the values this program can pass it (a cron day number or name);
anything else raises and the schedule is skipped. -/
def cronDayTokens : List String :=
  ["0", "1", "2", "3", "4", "5", "6",
   "mon", "tue", "wed", "thu", "fri", "sat", "sun"]

/-- Whether `_add_job` succeeds for a schedule: the `try` block of
src/scheduler.py lines 122-156 runs without an exception, i.e. the time
field splits into exactly hour and minute, both parse as in-range integers,
and the (mapped) day token is one the cron trigger accepts. -/
def add_job_valid (s : Schedule) : Bool :=
  match splitStr s.time ':' with
  | [h, m] =>
      match digitsToNat h.data, digitsToNat m.data with
      | some hh, some mm =>
          (decide (hh ≤ 23)) && (decide (mm ≤ 59)) &&
            cronDayTokens.contains (dayMapGet s.day)
      | _, _ => false
  | _ => false

/-- A materialized APScheduler job: its id and its next fire time (absolute
seconds; `none` models a job whose trigger yields no further firing). -/
structure SchedJob where
  id : String
  next_run : Option Nat
deriving Repr, DecidableEq

/-- `RecordingScheduler._add_job(schedule)`: on success registers a job with
id `recording_{schedule.id}` and `replace_existing=True` (any job already
carrying that id is replaced); on failure leaves the job set unchanged.
`nf` is the external cron computation giving the job's next fire time. -/
def add_job (nf : Schedule → Nat) (jobs : List SchedJob) (s : Schedule) : List SchedJob :=
  if add_job_valid s then
    jobs.filter (fun j => !(j.id == "recording_" ++ s.id)) ++
      [{ id := "recording_" ++ s.id, next_run := some (nf s) }]
  else jobs

/-- `RecordingScheduler._add_jobs_from_config()`: add a job for every
enabled schedule, in store order. -/
def add_jobs_from_config (nf : Schedule → Nat) (jobs : List SchedJob)
    (schedules : List Schedule) : List SchedJob :=
  schedules.foldl (fun js s => if s.enabled then add_job nf js s else js) jobs

/-- `RecordingScheduler._reload_jobs()`: drop every job whose id starts with
`recording_`, then re-add from the current store. -/
def reload_jobs (nf : Schedule → Nat) (jobs : List SchedJob)
    (schedules : List Schedule) : List SchedJob :=
  add_jobs_from_config nf (jobs.filter (fun j => !(strStartsWith j.id "recording_"))) schedules

/-- The job set right after `RecordingScheduler.start()`: materialized from
an empty job set. -/
def start_jobs (nf : Schedule → Nat) (schedules : List Schedule) : List SchedJob :=
  add_jobs_from_config nf [] schedules

/-- One entry of the `get_next_runs` listing. -/
structure NextRunInfo where
  id : String
  next_run : Nat
  day : String
  time : String
  duration : Nat
deriving Repr, DecidableEq

/-- The per-job body of `RecordingScheduler.get_next_runs`: recording jobs
with a pending fire time become an entry enriched from the store (or
`unknown` placeholders when the store no longer knows the id). -/
def nextRunEntry (schedules : List Schedule) (j : SchedJob) : Option NextRunInfo :=
  if strStartsWith j.id "recording_" then
    match j.next_run with
    | some t =>
        let sid := strReplace j.id "recording_" ""
        let sch := schedules.find? (fun s => s.id == sid)
        some
          { id := sid, next_run := t,
            day := (sch.map (fun s => s.day)).getD "unknown",
            time := (sch.map (fun s => s.time)).getD "unknown",
            duration := (sch.map (fun s => s.duration)).getD 0 }
    | none => none
  else none

/-- Ordering of listing entries by fire time. -/
def nrLe (a b : NextRunInfo) : Prop :=
  a.next_run ≤ b.next_run

instance : DecidableRel nrLe :=
  fun a b => inferInstanceAs (Decidable (a.next_run ≤ b.next_run))

instance : IsTotal NextRunInfo nrLe :=
  ⟨fun a b => Nat.le_total a.next_run b.next_run⟩

instance : IsTrans NextRunInfo nrLe :=
  ⟨fun _ _ _ => Nat.le_trans⟩

/-- Scheduler state: its config and the live materialized job set. -/
structure RecordingScheduler where
  config : Config
  jobs : List SchedJob
deriving Repr, DecidableEq

/-- `RecordingScheduler.get_next_runs(limit)` from src/scheduler.py: collect
the pending recording jobs, sort ascending by next fire time, return the
first `limit`. -/
def RecordingScheduler.get_next_runs (self : RecordingScheduler) (limit : Nat) :
    List NextRunInfo :=
  ((self.jobs.filterMap (nextRunEntry self.config.dynamic.schedules)).insertionSort
    nrLe).take limit

/-! ### The scheduled firing pipeline (src/scheduler.py `_run_scheduled_recording`) -/

/-- Effects of one scheduled firing: the recording result, the paths the
Uploader was invoked with, and the upload result when an upload ran. -/
structure FiringCall where
  result : RecordingResult
  upload_invocations : List String
  upload_result : Option UploadResult
deriving Repr, DecidableEq

/-- `RecordingScheduler._run_scheduled_recording(schedule)`: record for the
schedule's duration, and invoke the Uploader with the produced artifact only
when the capture succeeded. -/
def run_scheduled_recording (cfg : Config) (rec : Recorder) (renv : RecordEnv)
    (uenv : UploadEnv) (s : Schedule) : FiringCall :=
  let rc := Recorder.record rec (some s.duration) none false renv
  if rc.result.success then
    let uc := Uploader.upload ⟨cfg⟩ rc.result.filepath none uenv
    { result := rc.result, upload_invocations := [rc.result.filepath],
      upload_result := some uc.result }
  else
    { result := rc.result, upload_invocations := [], upload_result := none }

/-! ### Sequences of store operations (for the id-uniqueness claim) -/

/-- One store mutation issued through the command layer within a process
lifetime. -/
inductive StoreOp where
  | add (day time : String) (duration : Nat)
  | remove (sid : String)
deriving Repr, DecidableEq

/-- Apply one store operation. -/
def applyOp (cfg : Config) : StoreOp → Config
  | .add d t dur => (Config.add_schedule cfg d t dur).config
  | .remove sid => (Config.remove_schedule cfg sid).config

/-- Apply a sequence of store operations. -/
def applyOps (cfg : Config) (ops : List StoreOp) : Config :=
  ops.foldl applyOp cfg

/-! ### Concrete fixtures used by counterexamples and witnesses -/

/-- A config in its default state (fresh store, cleanup and notifications
enabled), as produced by `Config.__init__` with an empty schedule store. -/
def cfg0 : Config := {}

/-- An enabled schedule whose time field does not parse, so its
materialization in `_add_job` fails. -/
def badTimeSchedule : Schedule :=
  { id := "s1", day := "mon", time := "banana", duration := 60, enabled := true }

/-- A well-formed enabled schedule. -/
def goodSchedule : Schedule :=
  { id := "g1", day := "fri", time := "20:55", duration := 28800, enabled := true }

/-- A count of the jobs carrying a given id. -/
def countId (jobs : List SchedJob) (jid : String) : Nat :=
  jobs.countP (fun j => j.id == jid)

/-- A recorder that is mid-capture. -/
def busyRec : Recorder := { config := cfg0, is_recording := true }

/-- An idle recorder. -/
def idleRec : Recorder := { config := cfg0, is_recording := false }

/-- A capture environment where ffmpeg exits cleanly. -/
def envExit0 : RecordEnv := { outcome := .exited 0 "", file_size := 64, timestamp := "t" }

/-- A capture environment where ffmpeg exits 1 with a diagnostic. -/
def envRefused : RecordEnv :=
  { outcome := .exited 1 "connection refused", file_size := 0, timestamp := "t" }

/-- A capture environment where the surrounding task is cancelled. -/
def envCancelled : RecordEnv := { outcome := .cancelled, file_size := 0, timestamp := "t" }

/-- An upload environment for a missing local file. -/
def uenvMissing : UploadEnv := { file_exists := false }

/-- An upload environment where the copy succeeds but the remote-existence
check exits nonzero, so verification fails. -/
def uenvVerifyFail : UploadEnv :=
  { file_exists := true, file_size := 9, raised := none, copy_exit := 0, copy_stderr := "",
    verify_exit := 1, verify_stdout := "", delete_ok := true }

/-- An upload environment where everything succeeds. -/
def uenvAllOk : UploadEnv :=
  { file_exists := true, file_size := 9, raised := none, copy_exit := 0, copy_stderr := "",
    verify_exit := 0, verify_stdout := "      64 a.mp3", delete_ok := true }

/-! ### Helper lemmas -/

theorem string_data_append (a b : String) : (a ++ b).data = a.data ++ b.data := by
  cases a; cases b; rfl

theorem string_append_left_cancel {a b c : String} (h : a ++ b = a ++ c) : b = c := by
  have hd : (a ++ b).data = (a ++ c).data := congrArg String.data h
  rw [string_data_append, string_data_append] at hd
  have hbc := List.append_cancel_left hd
  cases b with
  | mk db =>
      cases c with
      | mk dc => exact congrArg String.mk hbc

theorem isPrefixOf_append (p q : List Char) : p.isPrefixOf (p ++ q) = true := by
  induction p with
  | nil => simp [List.isPrefixOf]
  | cons c cs ih => simp [List.isPrefixOf, ih]

theorem isPrefixOf_self (p : List Char) : p.isPrefixOf p = true := by
  have h := isPrefixOf_append p []
  rwa [List.append_nil] at h

theorem strStartsWith_append (p q : String) : strStartsWith (p ++ q) p = true := by
  unfold strStartsWith
  rw [string_data_append]
  exact isPrefixOf_append p.data q.data

theorem strContains_self (s : String) : strContains s s = true := by
  unfold strContains
  cases hd : s.data with
  | nil => simp [listIsInfixOf, hd]
  | cons c cs => simp [listIsInfixOf, hd, isPrefixOf_self]

theorem strContains_empty (s : String) : strContains s "" = true := by
  unfold strContains
  cases hd : s.data with
  | nil => simp [listIsInfixOf, hd, List.isEmpty]
  | cons c cs => simp [listIsInfixOf, hd, List.isPrefixOf]

theorem countId_filter_ne (jobs : List SchedJob) (rid jid : String) (h : jid ≠ rid) :
    countId (jobs.filter (fun j => !(j.id == rid))) jid = countId jobs jid := by
  induction jobs with
  | nil => rfl
  | cons j rest ih =>
      simp only [countId, List.filter_cons, List.countP_cons] at ih ⊢
      by_cases hj : (j.id == rid) = true
      · have h2 : (j.id == jid) = false := by
          rw [beq_eq_false_iff_ne]
          rw [beq_iff_eq] at hj
          rw [hj]
          exact fun hh => h hh.symm
        simp [hj, h2, ih]
      · have hj' : (j.id == rid) = false := by simpa using hj
        simp [hj', List.countP_cons, ih]

theorem countId_filter_self (jobs : List SchedJob) (rid : String) :
    countId (jobs.filter (fun j => !(j.id == rid))) rid = 0 := by
  apply List.countP_eq_zero.mpr
  intro j hj
  rw [List.mem_filter] at hj
  have h2 : (j.id == rid) = false := by simpa using hj.2
  simp [h2]

theorem add_job_count_eq (nf : Schedule → Nat) (jobs : List SchedJob) (s : Schedule)
    (hv : add_job_valid s = true) :
    countId (add_job nf jobs s) ("recording_" ++ s.id) = 1 := by
  have h0 := countId_filter_self jobs ("recording_" ++ s.id)
  simp only [countId] at h0
  simp [add_job, hv, countId, List.countP_append, h0]

theorem add_job_count_ne (nf : Schedule → Nat) (jobs : List SchedJob) (s : Schedule)
    (jid : String) (h : jid ≠ "recording_" ++ s.id) :
    countId (add_job nf jobs s) jid = countId jobs jid := by
  by_cases hv : add_job_valid s
  · have hne : (("recording_" ++ s.id : String) == jid) = false :=
      beq_eq_false_iff_ne.mpr (Ne.symm h)
    have hf := countId_filter_ne jobs ("recording_" ++ s.id) jid h
    simp [add_job, hv, countId, List.countP_append, hne] at hf ⊢
    simpa [countId] using hf
  · simp [add_job, hv]

theorem add_jobs_from_config_count (nf : Schedule → Nat) (schedules : List Schedule)
    (jobs : List SchedJob) (jid : String) :
    countId (add_jobs_from_config nf jobs schedules) jid =
      if schedules.any (fun s =>
          s.enabled && add_job_valid s && ("recording_" ++ s.id == jid)) then 1
      else countId jobs jid := by
  induction schedules generalizing jobs with
  | nil => simp [add_jobs_from_config]
  | cons s rest ih =>
      simp only [add_jobs_from_config, List.foldl_cons, List.any_cons] at ih ⊢
      by_cases he : s.enabled = true
      · by_cases hv : add_job_valid s = true
        · by_cases hid : ("recording_" ++ s.id) = jid
          · have hb : (("recording_" ++ s.id : String) == jid) = true := by simp [hid]
            rw [if_pos he, ih]
            simp only [he, hv, hb, Bool.and_self, Bool.true_or, if_true]
            split
            · rfl
            · rw [← hid]
              exact add_job_count_eq nf jobs s hv
          · have hb : (("recording_" ++ s.id : String) == jid) = false :=
              beq_eq_false_iff_ne.mpr hid
            rw [if_pos he, ih, add_job_count_ne nf jobs s jid (fun hh => hid hh.symm)]
            simp only [he, hv, hb, Bool.and_false, Bool.false_or, Bool.and_true,
              Bool.true_and]
        · have hv' : add_job_valid s = false := by simpa using hv
          have hAj : add_job nf jobs s = jobs := by simp [add_job, hv']
          rw [if_pos he, hAj, ih]
          simp only [hv', Bool.and_false, Bool.false_and, Bool.false_or]
      · have he' : s.enabled = false := by simpa using he
        rw [if_neg he, ih]
        simp only [he', Bool.false_and, Bool.false_or]

theorem removeLoop_eq (l : List Schedule) (sid : String) :
    removeLoop l sid =
      if l.any (fun s => s.id == sid) then some (l.eraseP (fun s => s.id == sid))
      else none := by
  induction l with
  | nil => rfl
  | cons s rest ih =>
      by_cases h : (s.id == sid) = true
      · simp [removeLoop, h, List.eraseP_cons, List.any_cons]
      · have h' : (s.id == sid) = false := by simpa using h
        rw [List.any_cons]
        simp only [removeLoop, h', Bool.false_or, List.eraseP_cons, cond_false]
        rw [ih]
        by_cases ha : (rest.any fun s => s.id == sid) = true
        · simp [ha, h']
        · have ha' : (rest.any fun s => s.id == sid) = false := by simpa using ha
          simp [ha', h']

/-! ### Claim theorems -/

/-- Claim C1: a `record()` call made while a capture is already in progress
returns immediately with `success=false` and an error containing
"already in progress", starts no capture, queues nothing, and leaves the
recorder state (and hence the in-flight capture's eventual, purely
environment-determined result) untouched. -/
theorem record_busy_rejected (rec : Recorder) (duration? : Option Nat)
    (filename? : Option String) (is_test : Bool) (env : RecordEnv)
    (h : rec.is_recording = true) :
    (Recorder.record rec duration? filename? is_test env).result.success = false ∧
    strContains ((Recorder.record rec duration? filename? is_test env).result.error.getD "")
      "already in progress" = true ∧
    (Recorder.record rec duration? filename? is_test env).captures_started = [] ∧
    (Recorder.record rec duration? filename? is_test env).state = rec := by
  have hc : strContains "Recording already in progress" "already in progress" = true := by
    decide
  simp [Recorder.record, h, hc]

theorem record_busy_rejected_witness :
    busyRec.is_recording = true ∧
    ((Recorder.record busyRec (some 10) none false envExit0).result.success = false ∧
      strContains ((Recorder.record busyRec (some 10) none false
        envExit0).result.error.getD "") "already in progress" = true ∧
      (Recorder.record busyRec (some 10) none false envExit0).captures_started = [] ∧
      (Recorder.record busyRec (some 10) none false envExit0).state = busyRec) :=
  ⟨rfl, record_busy_rejected _ _ _ _ _ rfl⟩

/-- Claim C9: a `record()` call that starts a capture (the recorder was idle)
leaves the busy flag cleared when it returns, on every exit path: zero exit,
nonzero exit, raised exception, and cancellation. -/
theorem record_clears_busy_flag (rec : Recorder) (duration? : Option Nat)
    (filename? : Option String) (is_test : Bool) (env : RecordEnv)
    (h : rec.is_recording = false) :
    (Recorder.record rec duration? filename? is_test env).state.is_recording = false := by
  rcases env with ⟨o, sz, ts⟩
  cases o with
  | exited rc err => cases rc <;> simp [Recorder.record, h]
  | raised m => simp [Recorder.record, h]
  | cancelled => simp [Recorder.record, h]

theorem record_clears_busy_flag_witness :
    idleRec.is_recording = false ∧
    (Recorder.record idleRec (some 10) none false envCancelled).state.is_recording = false :=
  ⟨rfl, record_clears_busy_flag _ _ _ _ _ rfl⟩

/-- Claim C7: uploading a path whose file does not exist returns
`success=false` with an error message and never invokes the external
transfer capability. -/
theorem upload_missing_file_fails_fast (up : Uploader) (filepath : String)
    (delete_after : Option Bool) (env : UploadEnv) (h : env.file_exists = false) :
    (Uploader.upload up filepath delete_after env).result.success = false ∧
    (Uploader.upload up filepath delete_after env).result.error ≠ none ∧
    (Uploader.upload up filepath delete_after env).transfer_invoked = false := by
  simp [Uploader.upload, h]

theorem upload_missing_file_fails_fast_witness :
    uenvMissing.file_exists = false ∧
    ((Uploader.upload ⟨cfg0⟩ "recordings/nope.mp3" none uenvMissing).result.success = false ∧
      (Uploader.upload ⟨cfg0⟩ "recordings/nope.mp3" none uenvMissing).result.error ≠ none ∧
      (Uploader.upload ⟨cfg0⟩ "recordings/nope.mp3" none
        uenvMissing).transfer_invoked = false) :=
  ⟨rfl, upload_missing_file_fails_fast _ _ _ _ rfl⟩

/-- Claim C10: `remove_schedule(id)` with no matching schedule returns false
and changes nothing (no entry removed, nothing persisted, no change callback);
with a match it removes exactly the first matching entry, persists, fires the
registered change callback, and returns true. -/
theorem remove_schedule_first_match_or_untouched (cfg : Config) (sid : String) :
    (Config.remove_schedule cfg sid).removed =
      cfg.dynamic.schedules.any (fun s => s.id == sid) ∧
    (Config.remove_schedule cfg sid).saved = (Config.remove_schedule cfg sid).removed ∧
    (Config.remove_schedule cfg sid).callback_fired =
      ((Config.remove_schedule cfg sid).removed && cfg.on_change_set) ∧
    (Config.remove_schedule cfg sid).config =
      (if cfg.dynamic.schedules.any (fun s => s.id == sid) then
        { cfg with dynamic :=
            { cfg.dynamic with
              schedules := cfg.dynamic.schedules.eraseP (fun s => s.id == sid) } }
       else cfg) := by
  unfold Config.remove_schedule
  rw [removeLoop_eq]
  by_cases h : cfg.dynamic.schedules.any (fun s => s.id == sid) = true
  · simp [h]
  · have h' : cfg.dynamic.schedules.any (fun s => s.id == sid) = false := by simpa using h
    simp [h']

/-- Claim C4 (code bug): `_schedule_add` is meant to reject non-positive
durations (`parse_duration` raises on a computed total of zero, and the data
model requires a positive duration), but the pure-digit fast path of
`parse_duration` returns `int("0") = 0` without that check, so the command
`/schedule add mon 12:00 0` adds and persists a schedule with duration 0. -/
theorem schedule_add_accepts_zero_duration :
    parse_duration "0" = some 0 ∧
    (schedule_add cfg0 "mon" "12:00" "0").outcome =
      AddOutcome.added
        { id := "user_0", day := "mon", time := "12:00", duration := 0, enabled := true } ∧
    (schedule_add cfg0 "mon" "12:00" "0").config.dynamic.schedules =
      [{ id := "user_0", day := "mon", time := "12:00", duration := 0, enabled := true }] ∧
    (schedule_add cfg0 "mon" "12:00" "0").saved = true ∧
    parse_duration "0s" = none := by
  refine ⟨rfl, ?_, ?_, rfl, rfl⟩ <;> rfl

/-- Claim C5 (code bug): `Config.add_schedule` assigns ids as
`user_{len(schedules)}`, so after add, add, remove-first, the next add
reuses id `user_1`, which still names a live schedule: ids are neither
unique within the process lifetime nor safe from reuse after removal. -/
theorem add_schedule_id_reuse_after_removal :
    ((applyOps cfg0
        [StoreOp.add "mon" "10:00" 60, StoreOp.add "tue" "11:00" 60,
         StoreOp.remove "user_0", StoreOp.add "wed" "12:00" 60]).dynamic.schedules.map
      (fun s => s.id)) = ["user_1", "user_1"] := by
  rfl

/-- Claim C2 (amended): after `reload()` (or `start()`), every enabled
schedule whose fields materialize (its time splits into an in-range hour and
minute and its day token is accepted by the cron trigger) has exactly one
job carrying its id, and an id carried by no enabled schedule in the store
(a disabled or removed one in particular) has no job at all, so its earlier
registered firing is gone. -/
theorem reload_materializes_timer_per_schedule (nf : Schedule → Nat)
    (jobs : List SchedJob) (schedules : List Schedule) :
    (∀ s ∈ schedules, s.enabled = true → add_job_valid s = true →
        countId (reload_jobs nf jobs schedules) ("recording_" ++ s.id) = 1) ∧
    (∀ sid : String, (∀ s ∈ schedules, s.enabled = true → s.id ≠ sid) →
        countId (reload_jobs nf jobs schedules) ("recording_" ++ sid) = 0) ∧
    (∀ s ∈ schedules, s.enabled = true → add_job_valid s = true →
        countId (start_jobs nf schedules) ("recording_" ++ s.id) = 1) ∧
    (∀ sid : String, (∀ s ∈ schedules, s.enabled = true → s.id ≠ sid) →
        countId (start_jobs nf schedules) ("recording_" ++ sid) = 0) := by
  have hany : ∀ (s : Schedule), s ∈ schedules → s.enabled = true → add_job_valid s = true →
      (schedules.any fun t =>
        t.enabled && add_job_valid t && ("recording_" ++ t.id == "recording_" ++ s.id)) =
        true := by
    intro s hs he hv
    exact List.any_eq_true.mpr ⟨s, hs, by simp [he, hv]⟩
  have hnone : ∀ (sid : String), (∀ s ∈ schedules, s.enabled = true → s.id ≠ sid) →
      (schedules.any fun t =>
        t.enabled && add_job_valid t && ("recording_" ++ t.id == "recording_" ++ sid)) =
        false := by
    intro sid hno
    by_contra hcon
    rw [Bool.not_eq_false] at hcon
    obtain ⟨t, ht, hp⟩ := List.any_eq_true.mp hcon
    simp only [Bool.and_eq_true, beq_iff_eq] at hp
    exact hno t ht hp.1.1 (string_append_left_cancel hp.2)
  refine ⟨?_, ?_, ?_, ?_⟩
  · intro s hs he hv
    unfold reload_jobs
    rw [add_jobs_from_config_count, if_pos (hany s hs he hv)]
  · intro sid hno
    unfold reload_jobs
    rw [add_jobs_from_config_count]
    rw [hnone sid hno]
    simp only [Bool.false_eq_true, if_false]
    apply List.countP_eq_zero.mpr
    intro j hj
    rw [List.mem_filter] at hj
    have hkeep : strStartsWith j.id "recording_" = false := by simpa using hj.2
    intro hbeq
    rw [beq_iff_eq] at hbeq
    rw [hbeq, strStartsWith_append] at hkeep
    exact Bool.true_eq_false.mp hkeep
  · intro s hs he hv
    unfold start_jobs
    rw [add_jobs_from_config_count, if_pos (hany s hs he hv)]
  · intro sid hno
    unfold start_jobs
    rw [add_jobs_from_config_count]
    rw [hnone sid hno]
    simp [countId]

/-- Claim C2 counterexample: an enabled schedule whose time field is
malformed is silently skipped by `_add_job`, so after a reload there is no
timer for it, contradicting "for every enabled schedule ... exactly one
materialized timer exists". -/
theorem reload_skips_malformed_schedule :
    badTimeSchedule.enabled = true ∧
    countId (reload_jobs (fun _ => 0) [] [badTimeSchedule])
      ("recording_" ++ badTimeSchedule.id) = 0 := by
  exact ⟨rfl, by rfl⟩

theorem reload_materializes_timer_witness :
    goodSchedule.enabled = true ∧ add_job_valid goodSchedule = true ∧
    countId
      (reload_jobs (fun _ => 100) [⟨"recording_stale", some 5⟩, ⟨"other", some 6⟩]
        [goodSchedule])
      ("recording_" ++ goodSchedule.id) = 1 ∧
    countId
      (reload_jobs (fun _ => 100) [⟨"recording_stale", some 5⟩, ⟨"other", some 6⟩]
        [goodSchedule])
      ("recording_" ++ "stale") = 0 :=
  ⟨rfl, by decide,
    (reload_materializes_timer_per_schedule (fun _ => 100) _ [goodSchedule]).1
      goodSchedule (List.mem_singleton.mpr rfl) rfl (by decide),
    (reload_materializes_timer_per_schedule (fun _ => 100)
        [⟨"recording_stale", some 5⟩, ⟨"other", some 6⟩] [goodSchedule]).2.1
      "stale" (by intro s hs he; rw [List.mem_singleton.mp hs]; decide)⟩

/-- Claim C3: when the file exists, the transfer succeeds and no exception
escapes, a failing remote-existence check still yields `success=true` with
`verified=false` and `local_deleted=false` (whatever the cleanup policy);
and the local file is reported deleted exactly when verification succeeded,
the effective deletion decision was on (explicit `delete_after=true`, or
unset with the cleanup policy enabled), and the deletion itself succeeded. -/
theorem upload_verification_independent (up : Uploader) (filepath : String)
    (delete_after : Option Bool) (env : UploadEnv) (hex : env.file_exists = true)
    (hr : env.raised = none) (hc : env.copy_exit = 0) :
    (verify_remote env (baseName filepath) = false →
        (Uploader.upload up filepath delete_after env).result.success = true ∧
        (Uploader.upload up filepath delete_after env).result.verified = false ∧
        (Uploader.upload up filepath delete_after env).result.local_deleted = false) ∧
    ((Uploader.upload up filepath delete_after env).result.local_deleted = true ↔
      (verify_remote env (baseName filepath) = true ∧
        (delete_after = some true ∨
          (delete_after = none ∧ up.config.dynamic.cleanup_enabled = true)) ∧
        env.delete_ok = true)) := by
  constructor
  · intro hvf
    simp [Uploader.upload, hex, hr, hc, hvf]
  · simp only [Uploader.upload, hex, hr, hc]
    cases delete_after with
    | none =>
        by_cases hcl : up.config.dynamic.cleanup_enabled = true <;>
          by_cases hv : verify_remote env (baseName filepath) = true <;>
            by_cases hd : env.delete_ok = true <;>
              simp_all
    | some b =>
        cases b <;>
          by_cases hv : verify_remote env (baseName filepath) = true <;>
            by_cases hd : env.delete_ok = true <;>
              simp_all

theorem upload_verification_independent_witness :
    uenvVerifyFail.file_exists = true ∧ uenvVerifyFail.raised = none ∧
    uenvVerifyFail.copy_exit = 0 ∧ cfg0.dynamic.cleanup_enabled = true ∧
    verify_remote uenvVerifyFail (baseName "recordings/a.mp3") = false ∧
    ((Uploader.upload ⟨cfg0⟩ "recordings/a.mp3" none uenvVerifyFail).result.success = true ∧
      (Uploader.upload ⟨cfg0⟩ "recordings/a.mp3" none uenvVerifyFail).result.verified =
        false ∧
      (Uploader.upload ⟨cfg0⟩ "recordings/a.mp3" none
        uenvVerifyFail).result.local_deleted = false) :=
  ⟨rfl, rfl, rfl, rfl, by decide,
    (upload_verification_independent ⟨cfg0⟩ "recordings/a.mp3" none uenvVerifyFail
      rfl rfl rfl).1 (by decide)⟩

/-- Claim C6: in a scheduled firing, a capture that exits nonzero yields
`success=false` with the diagnostic text inside the error field and no
Uploader invocation; the Uploader is invoked, with the produced artifact,
exactly when the capture succeeded. -/
theorem scheduled_firing_gates_upload (cfg : Config) (rec : Recorder)
    (renv : RecordEnv) (uenv : UploadEnv) (s : Schedule)
    (hb : rec.is_recording = false) :
    (∀ code stderr, renv.outcome = CaptureOutcome.exited code stderr → code ≠ 0 →
        (run_scheduled_recording cfg rec renv uenv s).result.success = false ∧
        strContains
          ((run_scheduled_recording cfg rec renv uenv s).result.error.getD "") stderr =
          true ∧
        (run_scheduled_recording cfg rec renv uenv s).upload_invocations = []) ∧
    ((run_scheduled_recording cfg rec renv uenv s).result.success = true →
        (run_scheduled_recording cfg rec renv uenv s).upload_invocations =
          [(run_scheduled_recording cfg rec renv uenv s).result.filepath]) ∧
    ((run_scheduled_recording cfg rec renv uenv s).result.success = false →
        (run_scheduled_recording cfg rec renv uenv s).upload_invocations = []) := by
  refine ⟨?_, ?_, ?_⟩
  · intro code stderr hout hne
    cases code with
    | zero => exact absurd rfl hne
    | succ n =>
        by_cases hse : stderr = ""
        · simp [run_scheduled_recording, Recorder.record, hb, hout, hse, strContains_empty]
        · simp [run_scheduled_recording, Recorder.record, hb, hout, hse, strContains_self]
  · intro hs
    by_cases hrc : (Recorder.record rec (some s.duration) none false renv).result.success =
        true
    · simp [run_scheduled_recording, hrc]
    · simp [run_scheduled_recording, hrc] at hs
  · intro hs
    by_cases hrc : (Recorder.record rec (some s.duration) none false renv).result.success =
        true
    · simp [run_scheduled_recording, hrc] at hs
    · simp [run_scheduled_recording, hrc]

theorem scheduled_firing_gates_upload_witness :
    idleRec.is_recording = false ∧
    envRefused.outcome = CaptureOutcome.exited 1 "connection refused" ∧
    ((run_scheduled_recording cfg0 idleRec envRefused uenvAllOk
        goodSchedule).result.success = false ∧
      strContains
        ((run_scheduled_recording cfg0 idleRec envRefused uenvAllOk
          goodSchedule).result.error.getD "") "connection refused" = true ∧
      (run_scheduled_recording cfg0 idleRec envRefused uenvAllOk
        goodSchedule).upload_invocations = []) :=
  ⟨rfl, rfl,
    (scheduled_firing_gates_upload cfg0 idleRec envRefused uenvAllOk goodSchedule rfl).1
      1 "connection refused" rfl (by decide)⟩

/-- Claim C8: `get_next_runs(0)` is empty; every listing is sorted ascending
by fire time; and for `k ≤ k'` over the same job set, the `k`-listing is
exactly the first `k` entries of the `k'`-listing (prefix-consistent
extension). -/
theorem next_runs_listing_properties (self : RecordingScheduler) :
    self.get_next_runs 0 = [] ∧
    (∀ k, List.Sorted nrLe (self.get_next_runs k)) ∧
    (∀ k k', k ≤ k' → self.get_next_runs k = (self.get_next_runs k').take k) ∧
    (∀ k, (self.get_next_runs k).length =
      min k (self.jobs.filterMap (nextRunEntry self.config.dynamic.schedules)).length) := by
  refine ⟨rfl, ?_, ?_, ?_⟩
  · intro k
    unfold RecordingScheduler.get_next_runs
    exact List.Pairwise.sublist (List.take_sublist k _)
      (List.sorted_insertionSort nrLe _)
  · intro k k' hk
    unfold RecordingScheduler.get_next_runs
    rw [List.take_take, Nat.min_eq_left hk]
  · intro k
    unfold RecordingScheduler.get_next_runs
    rw [List.length_take, List.length_insertionSort]

theorem next_runs_listing_properties_witness :
    (1 : Nat) ≤ 3 ∧
    RecordingScheduler.get_next_runs ⟨cfg0, [⟨"recording_a", some 30⟩,
      ⟨"recording_b", some 10⟩]⟩ 1 =
      (RecordingScheduler.get_next_runs ⟨cfg0, [⟨"recording_a", some 30⟩,
        ⟨"recording_b", some 10⟩]⟩ 3).take 1 :=
  ⟨by decide,
    (next_runs_listing_properties ⟨cfg0, [⟨"recording_a", some 30⟩,
      ⟨"recording_b", some 10⟩]⟩).2.2.1 1 3 (by decide)⟩

end Radio
